import Mathlib

/-!
Verification development for `cool_btc_bot.py` — a BTC price-alert bot.

The bot keeps a global map `_subs : Dict[int, float]` from subscriber id to
the last-notified price, and a global integer `_interval` (the shared alert
threshold).  A background `watcher` loop polls the price and alerts every
subscriber whose baseline has moved by at least `_interval`; inline-button
and text handlers mutate the map and the threshold, persisting them as JSON.

We embed the Python source shallowly: prices are modelled as `ℚ` (all the
decimal literals in play are exact), subscriber ids as `Int`, the map as an
association list in insertion order (Python dicts preserve insertion order),
and the outcome of each Telegram `send_message` call as an oracle
`ok : Int → Bool` (`false` = the call raised `TelegramError`).
-/

namespace BtcBot

/-- `DEFAULT_INT = 200`, the default alert step (source line 51). -/
def DEFAULT_INT : Int := 200

/-- `CHOICES = [50, 100, 200, 500]`, the quick-choice steps (line 52). -/
def CHOICES : List Int := [50, 100, 200, 500]

/-- `FAIL_LIMIT = 5`, the consecutive-failure limit of `get_price` (line 122). -/
def FAIL_LIMIT : Nat := 5

/-- The in-memory subscriber map `_subs : Dict[int, float]` (line 74),
as an association list in insertion order. -/
abbrev Subs := List (Int × ℚ)

/-- Python `uid in _subs` / dict lookup: the value bound to `uid`, if any. -/
def lookupSub (subs : Subs) (uid : Int) : Option ℚ :=
  match subs with
  | [] => none
  | kv :: rest => if kv.1 = uid then some kv.2 else lookupSub rest uid

/-- Python `_subs[uid] = p` when `uid` is already a key: update in place,
keeping insertion order; no effect on other keys. -/
def updateSub (subs : Subs) (uid : Int) (p : ℚ) : Subs :=
  subs.map (fun kv => if kv.1 = uid then (uid, p) else kv)

/-- Python `_subs[uid] = p` in general: update in place if present,
else append (a fresh dict key goes to the end in insertion order). -/
def setSub (subs : Subs) (uid : Int) (p : ℚ) : Subs :=
  if subs.any (fun kv => decide (kv.1 = uid)) then updateSub subs uid p
  else subs ++ [(uid, p)]

/-- Python truthiness of `p : float | None`: `None` and `0.0` are falsy. -/
def pyTruthyQ : Option ℚ → Bool
  | none => false
  | some x => decide (x ≠ 0)

/-! ## The watcher cycle (source lines 256–275)

```python
p = get_price()
if p is not None:
    step = _interval
    for uid, last in list(_subs.items()):
        if abs(p - last) >= step:
            txt = ...
            try:
                await app.bot.send_message(uid, txt)
                _subs[uid] = p
            except TelegramError as te:
                log.error("Ошибка отправки %d: %s", uid, te)
    write_json(STATE_FILE, _subs)
```

`cycleGo` threads the live map `cur` through the iteration over the snapshot
`list(_subs.items())`, returning the final map, the list of uids for which a
send was attempted, and the list for which the send succeeded.  Note that
`_subs[uid] = p` runs only after `send_message` returned without raising. -/

/-- One pass of the watcher's `for uid, last in list(_subs.items())` loop:
`items` is the snapshot, `cur` the live map.  Returns
`(final map, uids attempted, uids whose send succeeded)`. -/
def cycleGo (p T : ℚ) (ok : Int → Bool) : List (Int × ℚ) → Subs → Subs × List Int × List Int
  | [], cur => (cur, [], [])
  | kv :: rest, cur =>
    if T ≤ |p - kv.2| then
      if ok kv.1 then
        let r := cycleGo p T ok rest (updateSub cur kv.1 p)
        (r.1, kv.1 :: r.2.1, kv.1 :: r.2.2)
      else
        let r := cycleGo p T ok rest cur
        (r.1, kv.1 :: r.2.1, r.2.2)
    else
      cycleGo p T ok rest cur

/-- One whole body of the watcher loop, given the fetch outcome: on `none`
the cycle does nothing at all (no evaluation, no write); on `some p` it runs
the loop and then writes the final map to `STATE_FILE`.  The last component
is the map written to the store this cycle, if any. -/
def watcherCycle (fetch : Option ℚ) (T : ℚ) (ok : Int → Bool) (subs : Subs) :
    Subs × List Int × List Int × Option Subs :=
  match fetch with
  | none => (subs, [], [], none)
  | some p =>
    let r := cycleGo p T ok subs subs
    (r.1, r.2.1, r.2.2, some r.1)

/-! ## `change_interval` (source lines 234–250)

Sets the global `_interval` to `val`, writes `{"interval": val}` to
`COLLAB_FILE`, then loops over `list(_subs)` sending the announcement,
skipping `by_uid` when `notify_changer` is false; each send is
individually try/caught against `TelegramError`. -/

/-- The broadcast loop of `change_interval`: returns the uids for which a
send was attempted and the uids whose send succeeded. -/
def bcastGo (by_uid : Int) (nc : Bool) (ok : Int → Bool) : List Int → List Int × List Int
  | [] => ([], [])
  | uid :: rest =>
    if uid = by_uid ∧ nc = false then bcastGo by_uid nc ok rest
    else
      let r := bcastGo by_uid nc ok rest
      (uid :: r.1, if ok uid then uid :: r.2 else r.2)

/-- Result of one `change_interval` call. -/
structure ChangeIntervalResult where
  interval : Int
  written : Option Int
  attempted : List Int
  succeeded : List Int
  txt : String
deriving DecidableEq

/-- `change_interval(val, by_uid, bot, notify_changer)` given the previous
interval `old` and the subscriber map: no validation of `val`; writes the
new interval; broadcasts to every subscriber except (when `nc = false`)
the initiator. -/
def change_interval (val by_uid : Int) (nc : Bool) (ok : Int → Bool) (old : Int)
    (subs : Subs) : ChangeIntervalResult :=
  let b := bcastGo by_uid nc ok (subs.map Prod.fst)
  { interval := val
    written := some val
    attempted := b.1
    succeeded := b.2
    txt := "⚙️ Интервал изменён: " ++ toString old ++ " → " ++ toString val ++ " $" }

/-! ## `get_price` failure accounting (source lines 122–146)

On success `_fail_seq` is reset to 0 and the function returns inside the
`try`, so the limit check is not reached; on any caught failure `_fail_seq`
is incremented and then `if _fail_seq >= FAIL_LIMIT` logs the escalated
"Достигнут предел" entry. -/

/-- One `get_price()` call, given the fetch outcome and the current
`_fail_seq`: returns `(result, new _fail_seq, escalated-log emitted?)`. -/
def get_price_step (outcome : Option ℚ) (fail_seq : Nat) : Option ℚ × Nat × Bool :=
  match outcome with
  | some p => (some p, 0, false)
  | none =>
    let s := fail_seq + 1
    (none, s, decide (FAIL_LIMIT ≤ s))

/-- A sequence of `get_price()` calls with the given outcomes, starting from
counter `s`; returns, per call, whether the escalated log entry was emitted. -/
def runFetches : List (Option ℚ) → Nat → List Bool
  | [], _ => []
  | o :: rest, s =>
    let r := get_price_step o s
    r.2.2 :: runFetches rest r.2.1

/-! ## Persistence round-trip (source lines 89–101, 296–299)

`write_json(STATE_FILE, _subs)` serializes the dict with `json.dumps`,
which renders every dict key as a JSON string (`{123: x}` becomes
`{"123": x}`); at startup `main` reloads with `json.loads`, whose object
keys are Python `str`.  A Python dict key is an `int` or a `str`. -/

/-- A Python dict key in this program: an `int` uid (live state) or a
`str` (state reloaded from JSON). -/
inductive PyKey where
  | i : Int → PyKey
  | s : String → PyKey
deriving DecidableEq

/-- The JSON object key `json.dumps` produces for a dict key. -/
def jsonKey : PyKey → String
  | .i n => toString n
  | .s str => str

/-- `write_json(STATE_FILE, m)`: the JSON document written for map `m`. -/
def write_json_subs (m : List (PyKey × ℚ)) : List (String × ℚ) :=
  m.map fun kv => (jsonKey kv.1, kv.2)

/-- `read_json(STATE_FILE, {})` on a document that was written: `json.loads`
yields `str` keys. -/
def read_json_subs (j : List (String × ℚ)) : List (PyKey × ℚ) :=
  j.map fun kv => (PyKey.s kv.1, kv.2)

/-- A simulated process restart for the subscriber map: save then reload
(`main`, lines 296–298). -/
def restartSubs (m : List (PyKey × ℚ)) : List (PyKey × ℚ) :=
  read_json_subs (write_json_subs m)

/-! ## `cb_btn` subscription branches (source lines 192–203) -/

/-- The `data == "sub"` branch: fetch a price; if `None`, reply
"⛔ Цена недоступна" and mutate nothing; else set `_subs[uid] = p` and write
the map.  Returns `(new map, map written if any, subscribed?)`. -/
def cb_btn_sub (fetch : Option ℚ) (uid : Int) (subs : Subs) :
    Subs × Option Subs × Bool :=
  match fetch with
  | none => (subs, none, false)
  | some p =>
    let subs' := setSub subs uid p
    (subs', some subs', true)

/-- The `data == "unsub"` branch: `_subs.pop(uid, None)` always removes the
entry, but `write_json` runs only if the popped value is truthy.  Returns
`(new map, map written if any)`. -/
def cb_btn_unsub (uid : Int) (subs : Subs) : Subs × Option Subs :=
  let popped := lookupSub subs uid
  let subs' := subs.filter fun kv => decide (kv.1 ≠ uid)
  if pyTruthyQ popped then (subs', some subs') else (subs', none)

/-! ## Threshold-setting paths (source lines 212–218, 221–231, 296–299) -/

/-- Accumulating decimal parse of a digit sequence; `none` on a non-digit. -/
def digitsToNat : List Char → Option Nat → Option Nat
  | [], acc => acc
  | c :: cs, acc =>
    match acc with
    | none => none
    | some n => if c.isDigit then digitsToNat cs (some (n * 10 + (c.toNat - 48))) else none

/-- Python `int(s)` on the canonical decimal forms that occur here: an
optional leading minus followed by digits; anything else raises
`ValueError`, modelled as `none`. -/
def pyInt? (s : String) : Option Int :=
  match s.toList with
  | [] => none
  | '-' :: ds => if ds = [] then none else (digitsToNat ds (some 0)).map (fun n => -(n : Int))
  | ds => (digitsToNat ds (some 0)).map (fun n => (n : Int))

/-- The `data.startswith("step_")` branch of `cb_btn`:
`"step_custom"` only arms the `await_int` flag; otherwise
`val = int(data.split("_", 1)[1])` (no positivity check) and
`change_interval(val, uid, ...)` runs.  A non-numeric suffix makes `int()`
raise, aborting the handler with no mutation.  Returns
`(new interval, interval written if any, broadcast attempts)`. -/
def cb_btn_step (dat : String) (uid : Int) (ok : Int → Bool) (iv : Int)
    (subs : Subs) : Int × Option Int × List Int :=
  if dat = "step_custom" then (iv, none, [])
  else
    match pyInt? (dat.drop 5) with
    | none => (iv, none, [])
    | some val =>
      let r := change_interval val uid false ok iv subs
      (r.interval, r.written, r.attempted)

/-- `msg_text` (free-text interval input): does nothing unless the
`await_int` flag was armed; parses the text as `int`, raising (and replying
with a rejection) on parse failure or on `val <= 0`; otherwise applies
`change_interval`.  Returns
`(new interval, interval written if any, accepted?)`. -/
def msg_text_set (await_int : Bool) (txt : String) (iv : Int) :
    Int × Option Int × Bool :=
  if !await_int then (iv, none, false)
  else
    match pyInt? txt with
    | none => (iv, none, false)
    | some v => if v ≤ 0 then (iv, none, false) else (v, some v, true)

/-- `main`'s threshold initialization (line 299):
`read_json(COLLAB_FILE, {"interval": DEFAULT_INT}).get("interval", DEFAULT_INT)`;
`stored` is the `"interval"` field of the loaded document, when present.
No positivity check. -/
def initInterval (stored : Option Int) : Int := stored.getD DEFAULT_INT

/-! ## Price-query replies (source lines 174–176, 185–189) -/

/-- What a price query replies with. -/
inductive PriceReply where
  | price : ℚ → PriceReply
  | unavailable : PriceReply
deriving DecidableEq

/-- `cmd_price`: `f"BTC = {fprice(p)}" if p else "⛔ Цена недоступна."` —
the branch is chosen by Python truthiness of `p`. -/
def cmd_price_reply (p : Option ℚ) : PriceReply :=
  if pyTruthyQ p then PriceReply.price (p.getD 0) else PriceReply.unavailable

/-- The `data == "price"` branch of `cb_btn`: the same truthiness test. -/
def cb_btn_price_reply (p : Option ℚ) : PriceReply :=
  if pyTruthyQ p then PriceReply.price (p.getD 0) else PriceReply.unavailable

/-! ## Helper lemmas -/

theorem lookupSub_updateSub (subs : Subs) (k uid : Int) (p : ℚ) :
    lookupSub (updateSub subs k p) uid =
      if uid = k then (lookupSub subs uid).map (fun _ => p) else lookupSub subs uid := by
  induction subs with
  | nil => simp [lookupSub, updateSub]
  | cons kv rest ih =>
    simp only [updateSub, List.map_cons] at *
    by_cases hk : kv.1 = k
    · by_cases hu : uid = k
      · subst hu; simp [lookupSub, hk, ih]
      · have h2 : ¬ k = uid := fun h => hu h.symm
        simp [lookupSub, hk, hu, ih, h2]
    · by_cases hu : kv.1 = uid
      · have : ¬ uid = k := fun h => hk (hu.trans h)
        simp [lookupSub, hu, this]
      · simp [lookupSub, hk, hu, ih]

theorem lookupSub_of_mem_nodup (subs : Subs) (uid : Int) (last : ℚ)
    (hnd : (subs.map Prod.fst).Nodup) (hmem : (uid, last) ∈ subs) :
    lookupSub subs uid = some last := by
  induction subs with
  | nil => cases hmem
  | cons kv rest ih =>
    simp only [List.map_cons, List.nodup_cons] at hnd
    rcases List.mem_cons.mp hmem with h | h
    · subst h; simp [lookupSub]
    · have huid : uid ∈ rest.map Prod.fst := List.mem_map.mpr ⟨(uid, last), h, rfl⟩
      have : kv.1 ≠ uid := fun he => hnd.1 (he ▸ huid)
      simp [lookupSub, this, ih hnd.2 h]

theorem cycleGo_fst_lookup_of_notmem (p T : ℚ) (ok : Int → Bool)
    (items : List (Int × ℚ)) (cur : Subs) (uid : Int)
    (h : uid ∉ items.map Prod.fst) :
    lookupSub (cycleGo p T ok items cur).1 uid = lookupSub cur uid := by
  induction items generalizing cur with
  | nil => rfl
  | cons kv rest ih =>
    simp only [List.map_cons, List.mem_cons, not_or] at h
    by_cases hdue : T ≤ |p - kv.2|
    · by_cases hok : ok kv.1
      · simp only [cycleGo, if_pos hdue, if_pos hok]
        rw [ih _ h.2, lookupSub_updateSub, if_neg h.1]
      · simp only [cycleGo, if_pos hdue, if_neg hok]
        exact ih _ h.2
    · simp only [cycleGo, if_neg hdue]
      exact ih _ h.2

theorem cycleGo_lookup (p T : ℚ) (ok : Int → Bool)
    (items : List (Int × ℚ)) (cur : Subs) (uid : Int) (last : ℚ)
    (hnd : (items.map Prod.fst).Nodup) (hmem : (uid, last) ∈ items)
    (hcur : lookupSub cur uid = some last) :
    lookupSub (cycleGo p T ok items cur).1 uid =
      some (if T ≤ |p - last| ∧ ok uid = true then p else last) := by
  induction items generalizing cur with
  | nil => cases hmem
  | cons kv rest ih =>
    simp only [List.map_cons, List.nodup_cons] at hnd
    rcases List.mem_cons.mp hmem with h | h
    · subst h
      have hrest : uid ∉ rest.map Prod.fst := hnd.1
      by_cases hdue : T ≤ |p - last|
      · by_cases hok : ok uid
        · simp only [cycleGo, if_pos hdue, if_pos hok]
          rw [cycleGo_fst_lookup_of_notmem _ _ _ _ _ _ hrest,
            lookupSub_updateSub, if_pos rfl, hcur]
          simp [hdue, hok]
        · simp only [cycleGo, if_pos hdue, if_neg hok]
          rw [cycleGo_fst_lookup_of_notmem _ _ _ _ _ _ hrest, hcur]
          simp [hok]
      · simp only [cycleGo, if_neg hdue]
        rw [cycleGo_fst_lookup_of_notmem _ _ _ _ _ _ hrest, hcur]
        simp [hdue]
    · have huid : uid ∈ rest.map Prod.fst := List.mem_map.mpr ⟨(uid, last), h, rfl⟩
      have hne : kv.1 ≠ uid := fun he => hnd.1 (he ▸ huid)
      by_cases hdue : T ≤ |p - kv.2|
      · by_cases hok : ok kv.1
        · simp only [cycleGo, if_pos hdue, if_pos hok]
          refine ih _ hnd.2 h ?_
          rw [lookupSub_updateSub, if_neg (fun he => hne he.symm), hcur]
        · simp only [cycleGo, if_pos hdue, if_neg hok]
          exact ih _ hnd.2 h hcur
      · simp only [cycleGo, if_neg hdue]
        exact ih _ hnd.2 h hcur

theorem cycleGo_attempted (p T : ℚ) (ok : Int → Bool)
    (items : List (Int × ℚ)) (cur : Subs) :
    (cycleGo p T ok items cur).2.1 =
      (items.filter fun kv => decide (T ≤ |p - kv.2|)).map Prod.fst := by
  induction items generalizing cur with
  | nil => rfl
  | cons kv rest ih =>
    by_cases hdue : T ≤ |p - kv.2|
    · by_cases hok : ok kv.1
      · simp [cycleGo, if_pos hdue, if_pos hok, List.filter_cons, hdue, ih]
      · simp [cycleGo, if_pos hdue, if_neg hok, List.filter_cons, hdue, ih]
    · simp [cycleGo, if_neg hdue, List.filter_cons, hdue, ih]

theorem cycleGo_succeeded (p T : ℚ) (ok : Int → Bool)
    (items : List (Int × ℚ)) (cur : Subs) :
    (cycleGo p T ok items cur).2.2 =
      (items.filter fun kv => decide (T ≤ |p - kv.2|) && ok kv.1).map Prod.fst := by
  induction items generalizing cur with
  | nil => rfl
  | cons kv rest ih =>
    by_cases hdue : T ≤ |p - kv.2|
    · by_cases hok : ok kv.1
      · simp [cycleGo, if_pos hdue, if_pos hok, List.filter_cons, hdue, hok, ih]
      · simp [cycleGo, if_pos hdue, if_neg hok, List.filter_cons, hdue, hok, ih]
    · simp [cycleGo, if_neg hdue, List.filter_cons, hdue, ih]

theorem mem_bcastGo_attempted (by_uid : Int) (nc : Bool) (ok : Int → Bool)
    (ids : List Int) (v : Int) (hv : v ∈ ids) (hskip : ¬(v = by_uid ∧ nc = false)) :
    v ∈ (bcastGo by_uid nc ok ids).1 := by
  induction ids with
  | nil => cases hv
  | cons uid rest ih =>
    rcases List.mem_cons.mp hv with h | h
    · subst h
      rw [bcastGo, if_neg hskip]
      exact List.mem_cons_self _ _
    · by_cases hs : uid = by_uid ∧ nc = false
      · rw [bcastGo, if_pos hs]; exact ih h
      · rw [bcastGo, if_neg hs]; exact List.mem_cons_of_mem _ (ih h)

theorem runFetches_replicate_none (n s : ℕ) :
    runFetches (List.replicate n none) s =
      (List.range n).map fun i => decide (FAIL_LIMIT ≤ s + (i + 1)) := by
  induction n generalizing s with
  | zero => simp [runFetches]
  | succ n ih =>
    rw [List.replicate_succ, List.range_succ_eq_map]
    simp only [runFetches, get_price_step, List.map_cons, List.map_map]
    congr 1
    rw [ih (s + 1)]
    refine List.map_congr_left fun i _ => ?_
    simp only [Function.comp_apply, decide_eq_decide]
    omega

/-! ## Claim theorems -/

/-- C2: with a single subscriber at baseline `last`, the watcher attempts an
alert in the cycle iff `T ≤ |p - last|` (inclusive boundary); a subscriber
with `last = p` never triggers when `T > 0`; concretely, with threshold 200
and baseline 50000.00, price 50199.99 produces no alert while price
50200.00 produces an alert and the baseline becomes 50200.00. -/
theorem alert_fires_iff_delta_at_least_threshold
    (uid : Int) (last T p : ℚ) (ok : Int → Bool) (hT : 0 < T) :
    (uid ∈ (watcherCycle (some p) T ok [(uid, last)]).2.1 ↔ T ≤ |p - last|) ∧
    (last = p → uid ∉ (watcherCycle (some p) T ok [(uid, last)]).2.1) ∧
    (watcherCycle (some 50199.99) 200 (fun _ => true) [((1 : Int), (50000 : ℚ))]).2.1 = [] ∧
    (watcherCycle (some 50200) 200 (fun _ => true) [((1 : Int), (50000 : ℚ))]).2.1 = [1] ∧
    lookupSub (watcherCycle (some 50200) 200 (fun _ => true) [((1 : Int), (50000 : ℚ))]).1 1
      = some 50200 := by
  refine ⟨?_, ?_, ?_, ?_, ?_⟩
  · simp only [watcherCycle, cycleGo_attempted]
    by_cases h : T ≤ |p - last| <;> simp [List.filter_cons, h]
  · intro he
    simp only [watcherCycle, cycleGo_attempted]
    rw [he]
    simp [List.filter_cons, not_le.mpr hT]
  · norm_num [watcherCycle, cycleGo, abs_of_nonneg]
  · norm_num [watcherCycle, cycleGo, updateSub, abs_of_nonneg]
  · norm_num [watcherCycle, cycleGo, updateSub, lookupSub, abs_of_nonneg]

/-- Witness for C2: applies the theorem at threshold 200, baseline 50000,
price 50200. -/
theorem alert_fires_iff_delta_at_least_threshold_witness :
    (0 : ℚ) < 200 ∧
    ((1 : Int) ∈ (watcherCycle (some 50200) 200 (fun _ => true)
        [((1 : Int), (50000 : ℚ))]).2.1 ↔ (200 : ℚ) ≤ |(50200 : ℚ) - 50000|) :=
  ⟨by norm_num,
    (alert_fires_iff_delta_at_least_threshold 1 50000 200 50200 (fun _ => true)
      (by norm_num)).1⟩

/-- C9: when the fetch returns empty, the cycle evaluates nobody: the map is
unchanged, no alert is attempted, and nothing is written to the store. -/
theorem empty_fetch_skips_cycle (T : ℚ) (ok : Int → Bool) (subs : Subs) :
    watcherCycle none T ok subs = (subs, [], [], none) := rfl

/-- C1 counterexample: a due subscriber whose send raises `TelegramError`
keeps the old baseline 50000 instead of the fetched price 50200, refuting
"baseline equal to the new price even when sending raised a delivery
error". -/
theorem baseline_not_updated_on_failed_send_cex :
    (200 : ℚ) ≤ |(50200 : ℚ) - 50000| ∧
    (1 : Int) ∈ (watcherCycle (some 50200) 200 (fun _ => false)
      [((1 : Int), (50000 : ℚ))]).2.1 ∧
    lookupSub (watcherCycle (some 50200) 200 (fun _ => false)
      [((1 : Int), (50000 : ℚ))]).1 1 = some 50000 ∧
    (50000 : ℚ) ≠ 50200 := by
  refine ⟨by norm_num [abs_of_nonneg], ?_, ?_, by norm_num⟩
  · norm_num [watcherCycle, cycleGo, abs_of_nonneg]
  · norm_num [watcherCycle, cycleGo, lookupSub, abs_of_nonneg]

/-- C1 amended: in a watcher cycle, a subscriber's baseline becomes the
fetched price exactly when the subscriber was due and the send succeeded;
when the send raises a delivery error the baseline is left unchanged. -/
theorem baseline_updates_exactly_on_successful_send
    (p T : ℚ) (ok : Int → Bool) (subs : Subs) (uid : Int) (last : ℚ)
    (hnd : (subs.map Prod.fst).Nodup) (hmem : (uid, last) ∈ subs) :
    lookupSub (watcherCycle (some p) T ok subs).1 uid =
      some (if T ≤ |p - last| ∧ ok uid = true then p else last) := by
  simpa only [watcherCycle] using
    cycleGo_lookup p T ok subs subs uid last hnd hmem
      (lookupSub_of_mem_nodup subs uid last hnd hmem)

/-- Witness for the amended C1: one due subscriber with a failing send
keeps baseline 50000. -/
theorem baseline_updates_exactly_on_successful_send_witness :
    ([((1 : Int), (50000 : ℚ))].map Prod.fst).Nodup ∧
    ((1 : Int), (50000 : ℚ)) ∈ [((1 : Int), (50000 : ℚ))] ∧
    lookupSub (watcherCycle (some 50200) 200 (fun _ => false)
        [((1 : Int), (50000 : ℚ))]).1 1 =
      some (if (200 : ℚ) ≤ |(50200 : ℚ) - 50000| ∧ (fun _ : Int => false) 1 = true
        then (50200 : ℚ) else 50000) :=
  ⟨by simp, by simp,
    baseline_updates_exactly_on_successful_send 50200 200 (fun _ => false)
      [((1 : Int), (50000 : ℚ))] 1 50000 (by simp) (by simp)⟩

/-- C8: delivery failure is isolated: whatever the send outcomes `ok` for the
other recipients, a due subscriber is still sent its alert, a due subscriber
whose own send succeeds still has its baseline updated, and in the
threshold-change broadcast every subscriber other than the initiator is
still attempted. -/
theorem delivery_failure_isolated
    (p T : ℚ) (ok : Int → Bool) (subs : Subs) (uid : Int) (last : ℚ)
    (hnd : (subs.map Prod.fst).Nodup) (hmem : (uid, last) ∈ subs)
    (hdue : T ≤ |p - last|) :
    uid ∈ (watcherCycle (some p) T ok subs).2.1 ∧
    (ok uid = true → lookupSub (watcherCycle (some p) T ok subs).1 uid = some p) ∧
    (∀ val by_uid old v, v ∈ subs.map Prod.fst → v ≠ by_uid →
      v ∈ (change_interval val by_uid false ok old subs).attempted) := by
  refine ⟨?_, ?_, ?_⟩
  · simp only [watcherCycle, cycleGo_attempted]
    exact List.mem_map.mpr ⟨(uid, last), List.mem_filter.mpr ⟨hmem, by simp [hdue]⟩, rfl⟩
  · intro hok
    have h := cycleGo_lookup p T ok subs subs uid last hnd hmem
      (lookupSub_of_mem_nodup subs uid last hnd hmem)
    simpa only [watcherCycle, if_pos (And.intro hdue hok)] using h
  · intro val by_uid old v hv hne
    simp only [change_interval]
    exact mem_bcastGo_attempted by_uid false ok _ v hv (by simp [hne])

/-- Witness for C8: subscriber 1's send fails while subscriber 2's succeeds;
subscriber 2 is still attempted and its baseline becomes 50200. -/
theorem delivery_failure_isolated_witness :
    ([((1 : Int), (50000 : ℚ)), ((2 : Int), (50000 : ℚ))].map Prod.fst).Nodup ∧
    ((2 : Int), (50000 : ℚ)) ∈ [((1 : Int), (50000 : ℚ)), ((2 : Int), (50000 : ℚ))] ∧
    (200 : ℚ) ≤ |(50200 : ℚ) - 50000| ∧
    (2 : Int) ∈ (watcherCycle (some 50200) 200 (fun u => decide (u = 2))
      [((1 : Int), (50000 : ℚ)), ((2 : Int), (50000 : ℚ))]).2.1 ∧
    lookupSub (watcherCycle (some 50200) 200 (fun u => decide (u = 2))
      [((1 : Int), (50000 : ℚ)), ((2 : Int), (50000 : ℚ))]).1 2 = some 50200 := by
  have h := delivery_failure_isolated 50200 200 (fun u => decide (u = 2))
    [((1 : Int), (50000 : ℚ)), ((2 : Int), (50000 : ℚ))] 2 50000
    (by simp) (by simp) (by norm_num [abs_of_nonneg])
  exact ⟨by simp, by simp, by norm_num [abs_of_nonneg], h.1, h.2.1 (by simp)⟩

/-- C4 counterexample: starting from a zero counter, six consecutive fetch
failures emit the escalated "limit reached" log entry twice — once on the
fifth failure and again on the sixth — refuting "a sixth consecutive
failure does not emit it again". -/
theorem escalation_reemitted_on_sixth_failure_cex :
    runFetches (List.replicate 6 none) 0 = [false, false, false, false, true, true] ∧
    (runFetches (List.replicate 6 none) 0).count true = 2 := by
  exact ⟨rfl, rfl⟩

/-- C4 amended: the escalated log entry is emitted on every consecutive
failure from the fifth onward — once per failure while the counter is at or
beyond `FAIL_LIMIT`, not once per limit-crossing — and a successful fetch
resets the counter to zero without emitting. -/
theorem escalation_on_every_failure_at_or_beyond_limit :
    (∀ n s, runFetches (List.replicate n none) s =
      (List.range n).map fun i => decide (FAIL_LIMIT ≤ s + (i + 1))) ∧
    (∀ (p : ℚ) (rest : List (Option ℚ)) (s : ℕ),
      runFetches (some p :: rest) s = false :: runFetches rest 0) :=
  ⟨runFetches_replicate_none, fun _ _ _ => rfl⟩

/-- C3: saving the subscriber map and reloading it (a process restart) does
not reproduce the same in-memory state: `json.dumps` renders the integer
key 123 as the string "123", and `json.loads` keeps it a string, so the
reloaded map differs from the saved one in key type. -/
theorem restart_turns_int_keys_into_strings :
    restartSubs [(PyKey.i 123, (50000 : ℚ))] = [(PyKey.s "123", 50000)] ∧
    restartSubs [(PyKey.i 123, (50000 : ℚ))] ≠ [(PyKey.i 123, 50000)] := by
  exact ⟨rfl, by decide⟩

/-- C5 counterexample: unsubscribing uid 7 whose stored baseline is 0.0
removes the entry from the in-memory map (which therefore changes) but,
because `_subs.pop(uid, None)` returned the falsy 0.0, writes nothing to
the store. -/
theorem unsub_zero_baseline_skips_write_cex :
    (cb_btn_unsub 7 [((7 : Int), (0 : ℚ))]).1 = [] ∧
    ([((7 : Int), (0 : ℚ))] : Subs) ≠ [] ∧
    (cb_btn_unsub 7 [((7 : Int), (0 : ℚ))]).2 = none := by
  refine ⟨by decide, by decide, by decide⟩

/-- C5 amended: subscribe persists the updated map before returning, and
unsubscribe persists the updated map whenever the removed baseline is
truthy (present and non-zero); an entry with baseline 0.0 is removed
without a persistence write. -/
theorem mutators_write_through_unless_popped_falsy
    (uid : Int) (subs : Subs) (p b : ℚ)
    (hb : lookupSub subs uid = some b) (hb0 : b ≠ 0) :
    (cb_btn_sub (some p) uid subs).2.1 = some (setSub subs uid p) ∧
    (cb_btn_sub (some p) uid subs).1 = setSub subs uid p ∧
    (cb_btn_unsub uid subs).2 = some ((cb_btn_unsub uid subs).1) ∧
    (cb_btn_unsub uid subs).1 = subs.filter fun kv => decide (kv.1 ≠ uid) := by
  have ht : pyTruthyQ (lookupSub subs uid) = true := by
    rw [hb]; simp [pyTruthyQ, hb0]
  refine ⟨rfl, rfl, ?_, ?_⟩
  · simp [cb_btn_unsub, ht]
  · simp [cb_btn_unsub, ht]

/-- Witness for the amended C5: uid 7 with the non-zero baseline 50000. -/
theorem mutators_write_through_unless_popped_falsy_witness :
    lookupSub [((7 : Int), (50000 : ℚ))] 7 = some 50000 ∧
    (50000 : ℚ) ≠ 0 ∧
    (cb_btn_unsub 7 [((7 : Int), (50000 : ℚ))]).2 =
      some ((cb_btn_unsub 7 [((7 : Int), (50000 : ℚ))]).1) :=
  ⟨by decide, by norm_num,
    (mutators_write_through_unless_popped_falsy 7 [((7 : Int), (50000 : ℚ))] 1 50000
      (by decide) (by norm_num)).2.2.1⟩

/-- C6: when the seeding price fetch returns empty, subscribe fails, the
in-memory registry is unchanged, and nothing is written to the store. -/
theorem subscribe_unavailable_no_mutation (uid : Int) (subs : Subs) :
    cb_btn_sub none uid subs = (subs, none, false) := rfl

/-- C7 counterexample: the quick-choice button handler applies
`int(data.split("_", 1)[1])` with no positivity check, so callback data
"step_0" sets and persists the threshold 0; likewise initialization
accepts a stored -5.  This refutes "every path that sets the threshold
rejects or never produces a non-positive value". -/
theorem quick_choice_path_accepts_nonpositive_cex :
    (cb_btn_step "step_0" 1 (fun _ => true) 200 []).1 = 0 ∧
    (cb_btn_step "step_0" 1 (fun _ => true) 200 []).2.1 = some 0 ∧
    ¬(0 < (cb_btn_step "step_0" 1 (fun _ => true) 200 []).1) ∧
    initInterval (some (-5)) = -5 ∧
    ¬(0 < initInterval (some (-5))) := by
  refine ⟨by decide, by decide, by decide, by decide, by decide⟩

/-- C7 amended: only the free-text path validates positivity (rejecting a
non-positive parse with no state mutation and accepting a positive one);
the quick-choice button path applies whatever integer the callback data
parses to, and initialization accepts whatever the store holds; the
threshold stays positive only because the offered choices are all positive
and the default is 200. -/
theorem threshold_validated_only_on_free_text_path
    (v iv : Int) (dat txt : String) (uid : Int) (ok : Int → Bool) (subs : Subs) :
    (pyInt? txt = some v → v ≤ 0 → msg_text_set true txt iv = (iv, none, false)) ∧
    (pyInt? txt = some v → 0 < v → msg_text_set true txt iv = (v, some v, true)) ∧
    (pyInt? (dat.drop 5) = some v → dat ≠ "step_custom" →
      (cb_btn_step dat uid ok iv subs).1 = v ∧
      (cb_btn_step dat uid ok iv subs).2.1 = some v) ∧
    initInterval (some v) = v ∧
    initInterval none = DEFAULT_INT ∧
    (∀ c ∈ CHOICES, 0 < c) := by
  refine ⟨?_, ?_, ?_, rfl, rfl, by decide⟩
  · intro hp h; simp [msg_text_set, hp, h]
  · intro hp h; simp [msg_text_set, hp, not_le.mpr h, le_of_lt]
  · intro hp hc
    simp [cb_btn_step, hc, hp, change_interval]

/-- Witness for the amended C7: the free-text input "-7" is rejected with
no mutation. -/
theorem threshold_validated_only_on_free_text_path_witness :
    pyInt? "-7" = some (-7) ∧ (-7 : Int) ≤ 0 ∧
    msg_text_set true "-7" 200 = (200, none, false) :=
  ⟨by decide, by decide,
    (threshold_validated_only_on_free_text_path (-7) 200 "x" "-7" 1 (fun _ => true) []).1
      (by decide) (by decide)⟩

/-- C10: both price-query paths branch on Python truthiness of the fetched
value, so a successful fetch of 0.0 is reported "price unavailable",
exactly as an empty fetch is. -/
theorem price_zero_reported_unavailable :
    cmd_price_reply (some 0) = PriceReply.unavailable ∧
    cmd_price_reply (some 0) = cmd_price_reply none ∧
    cb_btn_price_reply (some 0) = PriceReply.unavailable ∧
    cb_btn_price_reply (some 0) = cb_btn_price_reply none := by
  refine ⟨by decide, by decide, by decide, by decide⟩

end BtcBot
